import Mathlib

/-!
Verification of the resource-naming and permission-scoping scheme of the
`aws-cdk-infra` repository.

The repository declares a CDK stack (`src/index.ts`, class `InfraStack`) and an
app entry point (the unnamed bin file) that instantiates it.  The logic worth
verifying is the pure derivation, from the `environment` string, of

  * the physical resource names (table, buckets, connection, CodeBuild project,
    pipeline, CloudFormation stack, change set), and
  * the IAM policy statements (action list, resource-ARN-pattern list) attached
    to the CodeBuild service role and the CodePipeline execution role.

Everything below is a direct transcription of the template literals and object
literals in `src/index.ts` and the bin file; `this.region`, `this.account` and
the CodeStar connection ARN (`attrConnectionArn`, generated by the platform at
deploy time) are abstracted as string parameters.
-/

namespace Infra

/-- Lower-case ASCII letter test, for the `[a-z]` character class. -/
def isLowerAlpha (c : Char) : Bool := 'a' ≤ c && c ≤ 'z'

/-- ASCII digit test, for the `[0-9]` character class. -/
def isDigitCh (c : Char) : Bool := '0' ≤ c && c ≤ '9'

/-- The spec's input constraint `^[a-z][a-z0-9-]*$` on the environment token:
a leading lower-case letter followed by lower-case letters, digits or hyphens. -/
def validEnv (e : String) : Bool :=
  match e.data with
  | [] => false
  | c :: cs => isLowerAlpha c && cs.all (fun d => isLowerAlpha d || isDigitCh d || d == '-')

/-- The physical resource names derived by `InfraStack` for one environment. -/
structure Names where
  table : String
  artifactBucket : String
  packagingBucket : String
  connection : String
  codebuildProject : String
  pipeline : String
  stack : String
  changeSet : String
deriving DecidableEq, Repr

/-- Name derivation, transcribed from `src/index.ts`:
`tableName: 'school-licenses-table'` (line 24, a fixed literal),
`` bucketName: `sle-${environment}-infra-artifacts` `` (line 55),
`` bucketName: `sle-${environment}-packaging-bucket` `` (line 61),
`` connectionName: `sle-${environment}-git-infra-conn` `` (line 69),
`` projectName: `sle-${environment}-infra-codebuild` `` (line 118),
`` pipelineName: `sle-${environment}-infra-pipeline` `` (line 274),
`` stackName: `sle-${environment}-infra-cf` `` (line 308),
`` changeSetName: `sle-${environment}-infra-changeset` `` (line 309). -/
def deriveNames (e : String) : Names where
  table := "school-licenses-table"
  artifactBucket := "sle-" ++ e ++ "-infra-artifacts"
  packagingBucket := "sle-" ++ e ++ "-packaging-bucket"
  connection := "sle-" ++ e ++ "-git-infra-conn"
  codebuildProject := "sle-" ++ e ++ "-infra-codebuild"
  pipeline := "sle-" ++ e ++ "-infra-pipeline"
  stack := "sle-" ++ e ++ "-infra-cf"
  changeSet := "sle-" ++ e ++ "-infra-changeset"

/-- One IAM policy statement: optional `sid`, an action list and a
resource-ARN-pattern list, as passed to `iam.PolicyStatement`. -/
structure Stmt where
  sid : Option String
  actions : List String
  resources : List String
deriving DecidableEq, Repr

/-- The ARN an S3 bucket with a fixed physical `bucketName` resolves to;
`bucketArn` references in the source resolve to this at synthesis. -/
def bucketArn (bucketName : String) : String := "arn:aws:s3:::" ++ bucketName

/-- The ARN a CodeBuild project with a fixed physical name resolves to;
`projectArn` references in the source resolve to this. -/
def projectArn (region account projectName : String) : String :=
  "arn:aws:codebuild:" ++ region ++ ":" ++ account ++ ":project/" ++ projectName

/-- The four `addToPolicy` statements on `infraCodeBuildServiceRole`
(`src/index.ts` lines 79-114), in source order. -/
def codeBuildRoleStatements (region account e : String) : List Stmt :=
  [ { sid := none,
      actions := ["logs:CreateLogGroup", "logs:CreateLogStream", "logs:PutLogEvents",
                  "logs:DescribeLogStreams"],
      resources := ["arn:aws:logs:" ++ region ++ ":" ++ account ++
        ":log-group:/aws/codebuild/sle-" ++ e ++ "-infra-codebuild*"] },
    { sid := none,
      actions := ["s3:GetObject", "s3:PutObject", "s3:GetObjectVersion", "s3:ListBucket"],
      resources := [bucketArn (deriveNames e).artifactBucket,
                    bucketArn (deriveNames e).artifactBucket ++ "/*",
                    bucketArn (deriveNames e).packagingBucket,
                    bucketArn (deriveNames e).packagingBucket ++ "/*"] },
    { sid := none,
      actions := ["cloudformation:ValidateTemplate", "cloudformation:DescribeStacks",
                  "cloudformation:PackageType"],
      resources := ["*"] },
    { sid := none,
      actions := ["iam:PassRole"],
      resources := ["arn:aws:iam::" ++ account ++ ":role/sle-" ++ e ++ "-*"] } ]

/-- The ten `addToPolicy` statements on `infraCodePipelineExecutionRole`
(`src/index.ts` lines 144-267), in source order.  `connectionArn` stands for
`infraGitHubConnection.attrConnectionArn`, the platform-generated connection
ARN (it does not embed the connection's name). -/
def pipelineRoleStatements (region account connectionArn e : String) : List Stmt :=
  [ { sid := some "PipelineStackPermission",
      actions := ["cloudformation:CreateStack", "cloudformation:DeleteStack",
                  "cloudformation:RollbackStack", "cloudformation:DescribeStacks",
                  "cloudformation:UpdateStack", "cloudformation:SetStackPolicy",
                  "cloudformation:GetStackPolicy", "cloudformation:GetTemplate",
                  "cloudformation:ListStacks"],
      resources := ["arn:aws:cloudformation:" ++ region ++ ":" ++ account ++
        ":stack/sle-" ++ e ++ "-*"] },
    { sid := some "PipelineChangeSetPermission",
      actions := ["cloudformation:ListChangeSets", "cloudformation:CreateChangeSet",
                  "cloudformation:DescribeChangeSet", "cloudformation:ExecuteChangeSet",
                  "cloudformation:DeleteChangeSet"],
      resources := ["*"] },
    { sid := some "DynamoDB",
      actions := ["dynamodb:CreateTable", "dynamodb:UpdateTable", "dynamodb:DescribeTable",
                  "dynamodb:DeleteTable", "dynamodb:TagResource", "dynamodb:UntagResource",
                  "dynamodb:UpdateContinuousBackups", "dynamodb:DescribeContinuousBackups"],
      resources := ["arn:aws:dynamodb:" ++ region ++ ":" ++ account ++
        ":table/school-licenses-table"] },
    { sid := some "S3ListPermissions",
      actions := ["s3:ListBucket", "s3:GetObjectVersion", "s3:GetObject", "s3:PutObject",
                  "s3:DeleteObject", "s3:TagResource", "s3:UntagResource",
                  "s3:ListTagsForResource", "s3:PutBucketPublicAccessBlock"],
      resources := ["arn:aws:s3:::sle-" ++ e ++ "-*",
                    "arn:aws:s3:::sle-" ++ e ++ "-*/*"] },
    { sid := none,
      actions := ["codestar-connections:UseConnection", "codestar-connections:GetConnection"],
      resources := [connectionArn] },
    { sid := none,
      actions := ["codebuild:StartBuild", "codebuild:BatchGetBuilds"],
      resources := [projectArn region account (deriveNames e).codebuildProject] },
    { sid := some "ApplicationPipelinePermissions",
      actions := ["codeconnections:CreateConnection", "codeconnections:GetConnection",
                  "codeconnections:DeleteConnection", "codeconnections:TagResource",
                  "codeconnections:ListTagsForResource", "codestar-connections:PassConnection"],
      resources := ["arn:aws:codestar-connections:" ++ region ++ ":" ++ account ++ ":*"] },
    { sid := some "CodeBuildAccess",
      actions := ["codebuild:CreateProject", "codebuild:DeleteProject"],
      resources := ["arn:aws:codebuild:" ++ region ++ ":" ++ account ++
        ":project/sle-" ++ e ++ "-*"] },
    { sid := some "CodePipelineAccess",
      actions := ["codepipeline:CreatePipeline", "codepipeline:DeletePipeline",
                  "codepipeline:TagResource", "codepipeline:UntagResource",
                  "codepipeline:GetPipeline"],
      resources := ["arn:aws:codepipeline:" ++ region ++ ":" ++ account ++
        ":sle-" ++ e ++ "-*"] },
    { sid := some "SSMParameterStoreAccess",
      actions := ["ssm:GetParameter", "ssm:PutParameter", "ssm:DeleteParameter"],
      resources := ["arn:aws:ssm:" ++ region ++ ":" ++ account ++ ":parameter/cdk-bootstrap*"] } ]

/-- All statements the stack grants, both roles together. -/
def allStatements (region account connectionArn e : String) : List Stmt :=
  codeBuildRoleStatements region account e ++
  pipelineRoleStatements region account connectionArn e

/-- `headMatch pat l` holds when the character list `pat` is an initial
segment of `l`. -/
def headMatch : List Char → List Char → Bool
  | [], _ => true
  | _ :: _, [] => false
  | a :: as, b :: bs => a == b && headMatch as bs

/-- `occursIn pat l` holds when `pat` occurs contiguously somewhere in `l`. -/
def occursIn (pat : List Char) : List Char → Bool
  | [] => headMatch pat []
  | b :: bs => headMatch pat (b :: bs) || occursIn pat bs

/-- `containsStr s pat` holds when `pat` is a contiguous substring of `s`. -/
def containsStr (s pat : String) : Bool := occursIn pat.data s.data

/-- The statements the spec documents as platform-limitation exceptions:
change-set description/listing, template validation, connection creation. -/
def threeExceptions (s : Stmt) : Bool :=
  s.actions.contains "cloudformation:ListChangeSets" ||
  s.actions.contains "cloudformation:ValidateTemplate" ||
  s.actions.contains "codeconnections:CreateConnection"

/-- The exceptions actually needed: the three documented ones, plus the
DynamoDB statement (scoped to the shared, environment-independent table), the
SSM statement (scoped to the deployment tool's bootstrap parameters) and the
statement whose resource is the platform-generated connection ARN. -/
def scopeExceptions (s : Stmt) : Bool :=
  threeExceptions s ||
  s.sid == some "DynamoDB" ||
  s.sid == some "SSMParameterStoreAccess" ||
  s.actions.contains "codestar-connections:UseConnection"

/-- CDK app/stack context: the two keys the source reads via `tryGetContext`. -/
structure Ctx where
  environment : Option String
  pipelineGithubBranch : Option String
deriving DecidableEq, Repr

/-- JavaScript `tryGetContext(key) || dflt`: an absent key, or a falsy
(empty-string) value, falls back to the default. -/
def ctxOr : Option String → String → String
  | some s, d => if s = "" then d else s
  | none, d => d

/-- The build-time failures named by the spec's error-handling design. -/
inductive InfraError where
  | InvalidEnvironment
  | NameTooLong
  | NameCollision
deriving DecidableEq, Repr

/-- Everything the `InfraStack` constructor derives from its inputs: names,
CodeBuild environment variables (`src/index.ts` lines 127-131), the source
branch (line 286), both roles' policy statements, and the template filename the
change-set action reads from the build output (line 312). -/
structure StackModel where
  names : Names
  envVars : List (String × String)
  sourceBranch : String
  cbStatements : List Stmt
  plStatements : List Stmt
  templateFile : String
deriving DecidableEq, Repr

/-- The `InfraStack` constructor body, transcribed from `src/index.ts`.  It
declares the table and then the pipeline resources unconditionally; no step
reads anything but the parameters shown. -/
def infraStack (ctx : Ctx) (region account connectionArn e : String) : StackModel where
  names := deriveNames e
  envVars :=
    [("PACKAGING_BUCKET", (deriveNames e).packagingBucket),
     ("ENVIRONMENT", ctxOr ctx.environment e),
     ("PIPELINE_GITHUB_BRANCH", ctxOr ctx.pipelineGithubBranch "main")]
  sourceBranch := ctxOr ctx.pipelineGithubBranch "main"
  cbStatements := codeBuildRoleStatements region account e
  plStatements := pipelineRoleStatements region account connectionArn e
  templateFile := "sle-infrastructure-" ++ e ++ ".template.json"

/-- The derivation with the spec's error channel made explicit.  The source
constructor contains no validation and no throw - it cannot fail - so the
result is always `Except.ok`; the `Except` layer only makes the spec's failure
modes statable. -/
def derive (ctx : Ctx) (region account connectionArn e : String) :
    Except InfraError StackModel :=
  Except.ok (infraStack ctx region account connectionArn e)

/-- Value of one CodeBuild environment variable of the derived stack. -/
def envVarOf (m : StackModel) (k : String) : Option String :=
  m.envVars.lookup k

/-- The app entry point's environment token (bin file, line 8):
`app.node.tryGetContext('environment') || 'dev'`. -/
def appEnvironment (ctxEnv : Option String) : String := ctxOr ctxEnv "dev"

/-- The stack id the app entry point instantiates `InfraStack` with (bin file,
line 10): `` `sle-infrastructure-${environment}` ``. -/
def appStackId (ctxEnv : Option String) : String :=
  "sle-infrastructure-" ++ appEnvironment ctxEnv

end Infra

namespace Infra

/-! Helper lemmas about `headMatch`, `occursIn` and string append. -/

theorem headMatch_self_append (l r : List Char) : headMatch l (l ++ r) = true := by
  induction l with
  | nil => rfl
  | cons a as ih => simp [headMatch, ih]

theorem headMatch_append_right {pat l : List Char} (r : List Char)
    (h : headMatch pat l = true) : headMatch pat (l ++ r) = true := by
  induction pat generalizing l with
  | nil => rfl
  | cons a as ih =>
    cases l with
    | nil => exact absurd h (by simp [headMatch])
    | cons b bs =>
      simp only [headMatch, Bool.and_eq_true] at h
      simp only [List.cons_append, headMatch, Bool.and_eq_true]
      exact ⟨h.1, ih h.2⟩

theorem occursIn_nil_pat (l : List Char) : occursIn [] l = true := by
  cases l with
  | nil => rfl
  | cons b bs => simp [occursIn, headMatch]

theorem occursIn_parts (p q pat : List Char) : occursIn pat (p ++ (pat ++ q)) = true := by
  induction p with
  | nil =>
    cases pat with
    | nil => simpa using occursIn_nil_pat q
    | cons a as =>
      simp only [List.nil_append, List.cons_append, occursIn, Bool.or_eq_true]
      exact Or.inl (headMatch_self_append (a :: as) q)
  | cons c cs ih =>
    simp only [List.cons_append, occursIn, Bool.or_eq_true]
    exact Or.inr ih

theorem occursIn_append_right {pat l : List Char} (r : List Char)
    (h : occursIn pat l = true) : occursIn pat (l ++ r) = true := by
  induction l with
  | nil =>
    cases pat with
    | nil => simpa using occursIn_nil_pat r
    | cons a as => exact absurd h (by simp [occursIn, headMatch])
  | cons b bs ih =>
    simp only [occursIn, Bool.or_eq_true] at h
    simp only [List.cons_append, occursIn, Bool.or_eq_true]
    rcases h with h | h
    · exact Or.inl (headMatch_append_right r h)
    · exact Or.inr (ih h)

/-- A string of the shape `p ++ e ++ q` contains `e`. -/
theorem containsStr_parts (p e q : String) : containsStr (p ++ e ++ q) e = true := by
  unfold containsStr
  rw [String.data_append, String.data_append, List.append_assoc]
  exact occursIn_parts p.data q.data e.data

/-- Containment survives appending on the right. -/
theorem containsStr_append_right {s e : String} (t : String)
    (h : containsStr s e = true) : containsStr (s ++ t) e = true := by
  unfold containsStr at h ⊢
  rw [String.data_append]
  exact occursIn_append_right t.data h

/-- Left cancellation for string append. -/
theorem string_append_left_inj {p s t : String} (h : p ++ s = p ++ t) : s = t := by
  apply String.ext
  have h2 := congrArg String.data h
  rw [String.data_append, String.data_append] at h2
  exact List.append_cancel_left h2

/-- Middle cancellation for string append: equal results with the same fixed
head and tail force equal middles. -/
theorem string_append_mid_inj {e1 e2 : String} (p s : String)
    (h : p ++ e1 ++ s = p ++ e2 ++ s) : e1 = e2 := by
  apply String.ext
  have h2 := congrArg String.data h
  simp only [String.data_append] at h2
  exact List.append_cancel_left (List.append_cancel_right h2)

/-- An environment-scoped name never equals the fixed table name: the former
starts with "sl", the latter with "sc". -/
theorem table_ne_scoped (e s : String) : "school-licenses-table" ≠ "sle-" ++ e ++ s := by
  intro h
  have hL : headMatch ['s', 'c'] ("school-licenses-table").data = true := rfl
  have hR : headMatch ['s', 'c'] (("sle-" ++ e ++ s).data) = false := by
    rw [String.data_append, String.data_append]
    rfl
  rw [h] at hL
  exact absurd (hL.symm.trans hR) (by decide)

/-- Distinct suffixes after the common `sle-<env>-` prefix give distinct names. -/
theorem scoped_ne (e : String) {s1 s2 : String} (h : s1 ≠ s2) :
    "sle-" ++ e ++ s1 ≠ "sle-" ++ e ++ s2 :=
  fun hc => h (string_append_left_inj hc)

/-- Every character of a valid environment token is a lower-case letter, a
digit or a hyphen. -/
theorem validEnv_chars (e : String) (hv : validEnv e = true) :
    e.data.all (fun c => isLowerAlpha c || isDigitCh c || c == '-') = true := by
  unfold validEnv at hv
  cases h : e.data with
  | nil => simp
  | cons c cs =>
    rw [h] at hv
    simp only [Bool.and_eq_true] at hv
    simp only [List.all_cons, Bool.and_eq_true]
    exact ⟨by simp [hv.1], hv.2⟩

/-- The ENVIRONMENT CodeBuild variable of the derived stack is
`tryGetContext('environment') || environment`. -/
theorem envVar_ENVIRONMENT (ctx : Ctx) (region account connectionArn e : String) :
    envVarOf (infraStack ctx region account connectionArn e) "ENVIRONMENT"
      = some (ctxOr ctx.environment e) := rfl

/-- Claim C3: deriving for environment "dev" yields table "school-licenses-table",
artifact bucket "sle-dev-infra-artifacts", packaging bucket
"sle-dev-packaging-bucket", CodeBuild project "sle-dev-infra-codebuild" and
pipeline "sle-dev-infra-pipeline". -/
theorem C3_dev_names :
    (deriveNames "dev").table = "school-licenses-table" ∧
    (deriveNames "dev").artifactBucket = "sle-dev-infra-artifacts" ∧
    (deriveNames "dev").packagingBucket = "sle-dev-packaging-bucket" ∧
    (deriveNames "dev").codebuildProject = "sle-dev-infra-codebuild" ∧
    (deriveNames "dev").pipeline = "sle-dev-infra-pipeline" := by
  refine ⟨rfl, ?_, ?_, ?_, ?_⟩ <;> decide

/-- Claim C4: the table name is the fixed string "school-licenses-table" for
every environment token, so derive("prod") shares the table name with
derive("dev"), while every other derived name for "prod" is the "dev" name with
"prod" substituted for "dev". -/
theorem C4_table_env_independent :
    (∀ e : String, (deriveNames e).table = "school-licenses-table") ∧
    (deriveNames "prod").table = (deriveNames "dev").table ∧
    (deriveNames "prod").artifactBucket = "sle-prod-infra-artifacts" ∧
    (deriveNames "prod").packagingBucket = "sle-prod-packaging-bucket" ∧
    (deriveNames "prod").connection = "sle-prod-git-infra-conn" ∧
    (deriveNames "prod").codebuildProject = "sle-prod-infra-codebuild" ∧
    (deriveNames "prod").pipeline = "sle-prod-infra-pipeline" ∧
    (deriveNames "prod").stack = "sle-prod-infra-cf" ∧
    (deriveNames "prod").changeSet = "sle-prod-infra-changeset" := by
  refine ⟨fun _ => rfl, rfl, ?_, ?_, ?_, ?_, ?_, ?_, ?_⟩ <;> decide

/-- Claim C1 (counterexample): the empty string fails the input constraint
`^[a-z][a-z0-9-]*$`, yet the derivation does not fail with `InvalidEnvironment`
- the constructor contains no validation at all. -/
theorem C1_counterexample :
    validEnv "" = false ∧
    derive ⟨none, none⟩ "us-east-1" "111122223333" "connArn" "" ≠
      Except.error InfraError.InvalidEnvironment := by
  refine ⟨rfl, fun h => ?_⟩
  exact Except.noConfusion h

/-- Claim C1 (amended): the constructor performs no validation of
`environment`: for every input string, including ones that fail
`^[a-z][a-z0-9-]*$`, the derivation succeeds synchronously and the token is
interpolated verbatim into the resource names; no `InvalidEnvironment` failure
exists in the code. -/
theorem C1_no_validation (ctx : Ctx) (region account connectionArn e : String) :
    (derive ctx region account connectionArn e).isOk = true ∧
    (infraStack ctx region account connectionArn e).names.artifactBucket
      = "sle-" ++ e ++ "-infra-artifacts" ∧
    (infraStack ctx region account connectionArn e).names.packagingBucket
      = "sle-" ++ e ++ "-packaging-bucket" :=
  ⟨rfl, rfl, rfl⟩

/-- Claim C5: for distinct valid environment tokens, every environment-scoped
derived name (artifact bucket, packaging bucket, connection, CodeBuild
project, pipeline, stack, change set) differs between the two environments. -/
theorem C5_no_cross_env_collision (e1 e2 : String)
    (h1 : validEnv e1 = true) (h2 : validEnv e2 = true) (hne : e1 ≠ e2) :
    (deriveNames e1).artifactBucket ≠ (deriveNames e2).artifactBucket ∧
    (deriveNames e1).packagingBucket ≠ (deriveNames e2).packagingBucket ∧
    (deriveNames e1).connection ≠ (deriveNames e2).connection ∧
    (deriveNames e1).codebuildProject ≠ (deriveNames e2).codebuildProject ∧
    (deriveNames e1).pipeline ≠ (deriveNames e2).pipeline ∧
    (deriveNames e1).stack ≠ (deriveNames e2).stack ∧
    (deriveNames e1).changeSet ≠ (deriveNames e2).changeSet := by
  refine ⟨?_, ?_, ?_, ?_, ?_, ?_, ?_⟩ <;>
    exact fun h => hne (string_append_mid_inj _ _ h)

/-- Claim C5 witness at the concrete pair "dev" / "prod". -/
theorem C5_no_cross_env_collision_witness :
    (deriveNames "dev").artifactBucket ≠ (deriveNames "prod").artifactBucket ∧
    (deriveNames "dev").packagingBucket ≠ (deriveNames "prod").packagingBucket ∧
    (deriveNames "dev").connection ≠ (deriveNames "prod").connection ∧
    (deriveNames "dev").codebuildProject ≠ (deriveNames "prod").codebuildProject ∧
    (deriveNames "dev").pipeline ≠ (deriveNames "prod").pipeline ∧
    (deriveNames "dev").stack ≠ (deriveNames "prod").stack ∧
    (deriveNames "dev").changeSet ≠ (deriveNames "prod").changeSet :=
  C5_no_cross_env_collision "dev" "prod" (by decide) (by decide) (by decide)

/-- Claim C7: the names and both roles' policy statements derived by the stack
depend only on the environment token (and the abstracted region/account/
connection-ARN inputs), not on the app context: two derivations with the same
token agree on names and policies whatever the surrounding context state. -/
theorem C7_ctx_independent (e region account connectionArn : String) (ctx ctx' : Ctx) :
    (infraStack ctx region account connectionArn e).names
      = (infraStack ctx' region account connectionArn e).names ∧
    (infraStack ctx region account connectionArn e).cbStatements
      = (infraStack ctx' region account connectionArn e).cbStatements ∧
    (infraStack ctx region account connectionArn e).plStatements
      = (infraStack ctx' region account connectionArn e).plStatements :=
  ⟨rfl, rfl, rfl⟩

/-- Claim C8 (counterexample): with the context key 'environment' set to the
empty string and constructor parameter "dev", the ENVIRONMENT build variable is
"dev", not the set context value - JavaScript `||` treats the set-but-falsy
value as absent. -/
theorem C8_counterexample :
    envVarOf (infraStack ⟨some "", none⟩ "us-east-1" "111122223333" "connArn" "dev")
        "ENVIRONMENT" = some "dev" ∧
    ("dev" : String) ≠ "" := by
  exact ⟨rfl, by decide⟩

/-- Claim C8 (amended): the ENVIRONMENT build variable equals the app-context
value of 'environment' when that value is set and non-empty, and equals the
`environment` constructor parameter when the key is absent or empty; the
resource names always follow the constructor parameter, so the two can
diverge. -/
theorem C8_environment_var (ctx : Ctx) (e region account connectionArn : String) :
    (∀ c, ctx.environment = some c → c ≠ "" →
      envVarOf (infraStack ctx region account connectionArn e) "ENVIRONMENT" = some c) ∧
    (ctx.environment = none →
      envVarOf (infraStack ctx region account connectionArn e) "ENVIRONMENT" = some e) ∧
    (ctx.environment = some "" →
      envVarOf (infraStack ctx region account connectionArn e) "ENVIRONMENT" = some e) ∧
    (infraStack ctx region account connectionArn e).names.artifactBucket
      = "sle-" ++ e ++ "-infra-artifacts" := by
  refine ⟨?_, ?_, ?_, rfl⟩
  · intro c h hc
    rw [envVar_ENVIRONMENT, h]
    simp [ctxOr, hc]
  · intro h
    rw [envVar_ENVIRONMENT, h]
    rfl
  · intro h
    rw [envVar_ENVIRONMENT, h]
    rfl

/-- Claim C8 witness: context 'environment' = "prod" with parameter "dev"
makes the ENVIRONMENT variable "prod". -/
theorem C8_environment_var_witness :
    envVarOf (infraStack ⟨some "prod", some "main"⟩ "us-east-1" "111122223333" "connArn" "dev")
      "ENVIRONMENT" = some "prod" :=
  (C8_environment_var ⟨some "prod", some "main"⟩ "dev" "us-east-1" "111122223333" "connArn").1
    "prod" rfl (by decide)

/-- Claim C9: for every environment string, the eight derived resource names
(table, artifact bucket, packaging bucket, connection, CodeBuild project,
pipeline, stack, change set) are pairwise distinct: the environment-scoped
names append distinct fixed suffixes to the common `sle-<env>-` prefix, and
the fixed table name starts differently. -/
theorem C9_within_env_distinct (e : String) :
    List.Pairwise (fun a b => a ≠ b)
      [(deriveNames e).table, (deriveNames e).artifactBucket,
       (deriveNames e).packagingBucket, (deriveNames e).connection,
       (deriveNames e).codebuildProject, (deriveNames e).pipeline,
       (deriveNames e).stack, (deriveNames e).changeSet] := by
  refine List.pairwise_cons.mpr ⟨?_, ?_⟩
  · intro b hb
    fin_cases hb <;> exact table_ne_scoped e _
  · refine List.pairwise_cons.mpr ⟨?_, ?_⟩
    · intro b hb
      fin_cases hb <;> exact scoped_ne e (by decide)
    · refine List.pairwise_cons.mpr ⟨?_, ?_⟩
      · intro b hb
        fin_cases hb <;> exact scoped_ne e (by decide)
      · refine List.pairwise_cons.mpr ⟨?_, ?_⟩
        · intro b hb
          fin_cases hb <;> exact scoped_ne e (by decide)
        · refine List.pairwise_cons.mpr ⟨?_, ?_⟩
          · intro b hb
            fin_cases hb <;> exact scoped_ne e (by decide)
          · refine List.pairwise_cons.mpr ⟨?_, ?_⟩
            · intro b hb
              fin_cases hb <;> exact scoped_ne e (by decide)
            · refine List.pairwise_cons.mpr ⟨?_, ?_⟩
              · intro b hb
                fin_cases hb <;> exact scoped_ne e (by decide)
              · simp

/-- Claim C2 (counterexample): at environment "dev" (with concrete region,
account and connection ARN), the scoping claim with only the three documented
exceptions is false: the DynamoDB statement (scoped to the shared table
`school-licenses-table`) and the SSM statement (scoped to
`parameter/cdk-bootstrap*`) have resource patterns without the "dev"
substring, and neither is one of the three exceptions. -/
theorem C2_counterexample :
    ¬ (∀ s ∈ allStatements "us-east-1" "111122223333"
          "arn:aws:codestar-connections:us-east-1:111122223333:connection/0aa1b2c3" "dev",
        threeExceptions s = false → ∀ r ∈ s.resources, containsStr r "dev" = true) := by
  decide

/-- Claim C2 (amended): every permission scope's resource pattern contains the
environment token, except for the three documented platform-limitation
exceptions (change-set permissions, template validation, connection creation)
and three further statements the code actually grants more broadly: the
DynamoDB statement for the shared environment-independent table, the SSM
statement for the deployment tool's bootstrap parameters, and the statement
whose resource is the platform-generated connection ARN. -/
theorem C2_scoping (region account connectionArn e : String) :
    ∀ s ∈ allStatements region account connectionArn e,
      scopeExceptions s = false → ∀ r ∈ s.resources, containsStr r e = true := by
  intro s hs hexc r hr
  simp only [allStatements, codeBuildRoleStatements, pipelineRoleStatements,
    List.mem_append, List.mem_cons, List.not_mem_nil, or_false] at hs
  rcases hs with ((rfl | rfl | rfl | rfl) | (rfl | rfl | rfl | rfl | rfl | rfl | rfl | rfl | rfl | rfl)) <;>
  first
    | exact Bool.noConfusion hexc
    | (fin_cases hr <;>
        (try simp only [bucketArn, projectArn, deriveNames, ← String.append_assoc]) <;>
        (first
          | exact containsStr_parts _ _ _
          | exact containsStr_append_right _ (containsStr_parts _ _ _)))

/-- Claim C2 witness: the IAM PassRole scope at environment "dev" contains
"dev". -/
theorem C2_scoping_witness :
    containsStr "arn:aws:iam::111122223333:role/sle-dev-*" "dev" = true :=
  C2_scoping "us-east-1" "111122223333" "connArn" "dev"
    { sid := none, actions := ["iam:PassRole"],
      resources := ["arn:aws:iam::" ++ "111122223333" ++ ":role/sle-" ++ "dev" ++ "-*"] }
    (by decide) (by decide)
    "arn:aws:iam::111122223333:role/sle-dev-*" (by decide)

/-- Claim C6 (counterexample): a 43-character environment token passes the
input constraint, yet the derived packaging-bucket name is 64 characters
(over the 63-character storage-bucket limit) and the derivation still succeeds
- there is no `NameTooLong` validation anywhere in the code. -/
theorem C6_counterexample :
    validEnv "aaaaaaaaaaaaaaaaaaaaaaaaaaaaaaaaaaaaaaaaaaa" = true ∧
    63 < ((deriveNames "aaaaaaaaaaaaaaaaaaaaaaaaaaaaaaaaaaaaaaaaaaa").packagingBucket).length ∧
    (derive ⟨none, none⟩ "us-east-1" "111122223333" "connArn"
        "aaaaaaaaaaaaaaaaaaaaaaaaaaaaaaaaaaaaaaaaaaa").isOk = true := by
  refine ⟨by decide, by decide, rfl⟩

/-- Claim C6 (amended): for every environment token matching
`^[a-z][a-z0-9-]*$`, the derived bucket-style names are lower-case-safe
(lower-case letters, digits and hyphens only) and their lengths are exactly
the token length plus 20 (artifact bucket) and plus 21 (packaging bucket), so
they fit the 63-character limit exactly when the token has at most 42
characters; the derivation itself never validates length and never fails, so
an over-long name is passed through untruncated rather than reported as
`NameTooLong`. -/
theorem C6_name_limits (ctx : Ctx) (region account connectionArn e : String)
    (hv : validEnv e = true) :
    ((deriveNames e).artifactBucket.length = e.length + 20 ∧
     (deriveNames e).packagingBucket.length = e.length + 21) ∧
    (e.length ≤ 42 →
      (deriveNames e).artifactBucket.length ≤ 63 ∧
      (deriveNames e).packagingBucket.length ≤ 63) ∧
    ((deriveNames e).artifactBucket.data.all
        (fun c => isLowerAlpha c || isDigitCh c || c == '-') = true ∧
     (deriveNames e).packagingBucket.data.all
        (fun c => isLowerAlpha c || isDigitCh c || c == '-') = true) ∧
    (derive ctx region account connectionArn e).isOk = true := by
  have h4 : ("sle-" : String).length = 4 := rfl
  have h16 : ("-infra-artifacts" : String).length = 16 := rfl
  have h17 : ("-packaging-bucket" : String).length = 17 := rfl
  have hlen1 : (deriveNames e).artifactBucket.length = e.length + 20 := by
    simp only [deriveNames, String.length_append, h4, h16]
    omega
  have hlen2 : (deriveNames e).packagingBucket.length = e.length + 21 := by
    simp only [deriveNames, String.length_append, h4, h17]
    omega
  refine ⟨⟨hlen1, hlen2⟩, ?_, ⟨?_, ?_⟩, rfl⟩
  · intro hle
    rw [hlen1, hlen2]
    omega
  · simp only [deriveNames, String.data_append, List.all_append, Bool.and_eq_true]
    exact ⟨⟨by decide, validEnv_chars e hv⟩, by decide⟩
  · simp only [deriveNames, String.data_append, List.all_append, Bool.and_eq_true]
    exact ⟨⟨by decide, validEnv_chars e hv⟩, by decide⟩

/-- Claim C6 witness at "dev": 23- and 24-character lower-case bucket names,
within the limit, and a successful derivation. -/
theorem C6_name_limits_witness :
    (((deriveNames "dev").artifactBucket.length = "dev".length + 20 ∧
      (deriveNames "dev").packagingBucket.length = "dev".length + 21) ∧
     ("dev".length ≤ 42 →
       (deriveNames "dev").artifactBucket.length ≤ 63 ∧
       (deriveNames "dev").packagingBucket.length ≤ 63) ∧
     ((deriveNames "dev").artifactBucket.data.all
         (fun c => isLowerAlpha c || isDigitCh c || c == '-') = true ∧
      (deriveNames "dev").packagingBucket.data.all
         (fun c => isLowerAlpha c || isDigitCh c || c == '-') = true) ∧
     (derive ⟨none, none⟩ "us-east-1" "111122223333" "connArn" "dev").isOk = true) :=
  C6_name_limits ⟨none, none⟩ "us-east-1" "111122223333" "connArn" "dev" (by decide)

/-- Claim C10: when the app context has no 'environment' key the token
defaults to "dev"; the app always instantiates the stack with id
`sle-infrastructure-<environment>`, and the pipeline's change-set stage reads
the built template at exactly that id with ".template.json" appended. -/
theorem C10_app_default_and_template (ctxEnv branch : Option String)
    (region account connectionArn : String) :
    appEnvironment none = "dev" ∧
    appStackId ctxEnv = "sle-infrastructure-" ++ appEnvironment ctxEnv ∧
    (infraStack ⟨ctxEnv, branch⟩ region account connectionArn
        (appEnvironment ctxEnv)).templateFile
      = appStackId ctxEnv ++ ".template.json" :=
  ⟨rfl, rfl, rfl⟩

end Infra
